import Mathlib

/-!
Shallow embedding of the multi-model conversation manager of
`src/lesson5/lesson5_4.py` (`ChatModelsManager` and the module-level
`export_conversation`), together with proofs of the spec's claims about it.

Modelling conventions:
* A Python dict `self.models : name ↦ adapter handle` is split into the ordered
  key list `models : List String` (dict keys, insertion order) and an external
  `Adapter` function giving each backend's behaviour on a message list; this is
  exactly the spec's "Model Client Adapter" collaborator.  `invoke` either
  returns text (`Except.ok`) or raises (`Except.error` carrying `str(e)`).
* `datetime.now()` values are passed in as explicit timestamp strings
  (`tsU` for the user turn, `tsA` for the assistant turn, `now` for export).
* Python truthiness of strings/lists is made explicit (`s != ""`,
  `List.isEmpty`), and `str.strip()` is the structural `pyStrip`.
-/

namespace Lesson5Chat

/-- One entry of `conversation_history`: the dict
`{"role": role, "content": content, "timestamp": ...}` built by `add_message`. -/
structure Turn where
  role : String
  content : String
  timestamp : String
deriving DecidableEq, Repr

/-- An outbound LangChain message: `SystemMessage`, `HumanMessage` or `AIMessage`. -/
inductive Msg where
  | system (content : String)
  | human (content : String)
  | ai (content : String)
deriving DecidableEq, Repr

/-- Behaviour of the backend adapters: given the selected model name and the
message list, `model.invoke(messages)` either returns response text or raises
(the `Except.error` payload is the exception text `str(e)`). -/
def Adapter : Type := String → List Msg → Except String String

/-- The mutable state of `ChatModelsManager`. -/
structure Manager where
  models : List String
  current_model : Option String
  conversation_history : List Turn
  system_message : String
deriving DecidableEq, Repr

/-- Default system message set in `ChatModelsManager.__init__`. -/
def defaultSystemMessage : String :=
  "你是一個友善且樂於助人的 AI 助手，請用繁體中文回答問題。"

def ollamaName : String := "Ollama (llama3.2)"
def geminiName : String := "Gemini (gemini-2.5-flash)"
def openaiName : String := "OpenAI (gpt-4o-mini)"
def anthropicName : String := "Anthropic (claude-3-5-sonnet)"

/-- The registry keys produced by `_initialize_models`: each of the four
candidates is registered exactly when its prerequisite holds (constructor does
not raise; for the hosted providers, the API key is present), in the fixed
source order. -/
def initRegistry (okOllama okGemini okOpenAI okAnthropic : Bool) : List String :=
  (if okOllama then [ollamaName] else []) ++
  (if okGemini then [geminiName] else []) ++
  (if okOpenAI then [openaiName] else []) ++
  (if okAnthropic then [anthropicName] else [])

/-- `ChatModelsManager.__init__` followed by `_initialize_models`:
`current_model` becomes the first registered key when the registry is
non-empty (`list(self.models.keys())[0]`), else stays `None`. -/
def initManager (okOllama okGemini okOpenAI okAnthropic : Bool) : Manager :=
  let ms := initRegistry okOllama okGemini okOpenAI okAnthropic
  { models := ms
    current_model := ms.head?
    conversation_history := []
    system_message := defaultSystemMessage }

/-- `get_available_models`: `list(self.models.keys())`. -/
def Manager.get_available_models (m : Manager) : List String :=
  m.models

/-- `set_model`: switch `current_model` iff the name is a registry key. -/
def Manager.set_model (m : Manager) (model_name : String) : Manager × String :=
  if m.models.contains model_name then
    ({ m with current_model := some model_name }, "✅ 已切換至 " ++ model_name)
  else
    (m, "❌ 模型 " ++ model_name ++ " 不可用")

/-- `set_system_message`: unconditional replacement. -/
def Manager.set_system_message (m : Manager) (message : String) : Manager × String :=
  ({ m with system_message := message }, "✅ 系統訊息已更新")

/-- `clear_conversation`: `self.conversation_history = []`. -/
def Manager.clear_conversation (m : Manager) : Manager × String :=
  ({ m with conversation_history := [] }, "✅ 對話歷史已清除")

/-- `get_conversation_history`. -/
def Manager.get_conversation_history (m : Manager) : List Turn :=
  m.conversation_history

/-- `add_message`: append one role/content/timestamp dict to the history;
the timestamp (`datetime.now().strftime(...)`) is passed in explicitly. -/
def Manager.add_message (m : Manager) (role content ts : String) : Manager :=
  { m with conversation_history :=
      m.conversation_history ++ [{ role := role, content := content, timestamp := ts }] }

/-- Drop leading whitespace characters. -/
def dropLeadingWs : List Char → List Char
  | [] => []
  | c :: cs => if c.isWhitespace then dropLeadingWs cs else c :: cs

/-- Python `str.strip()`: remove leading and trailing whitespace (for the
ASCII whitespace relevant here). -/
def pyStrip (s : String) : String :=
  ⟨(dropLeadingWs ((dropLeadingWs s.data.reverse).reverse))⟩

/-- The history loop in `chat`: a `"user"` turn becomes `HumanMessage`, an
`"assistant"` turn becomes `AIMessage`, any other role is skipped (the loop has
no `else` branch). -/
def histMsg? (t : Turn) : Option Msg :=
  if t.role == "user" then some (Msg.human t.content)
  else if t.role == "assistant" then some (Msg.ai t.content)
  else none

/-- The `messages` list built inside `chat`: system message first, then the
history turns in stored order, then the current user input. -/
def buildMessages (m : Manager) (user_input : String) : List Msg :=
  Msg.system m.system_message ::
    (m.conversation_history.filterMap histMsg? ++ [Msg.human user_input])

/-- `selected_model = model_name if model_name and model_name in self.models
else self.current_model` (note Python truthiness: an empty-string override is
falsy and falls back to `current_model`). -/
def resolveModel (m : Manager) (model_name : Option String) : Option String :=
  match model_name with
  | some n => if (n != "") && m.models.contains n then some n else m.current_model
  | none => m.current_model

/-- Guidance message for blank input. -/
def emptyInputMsg : String := "請輸入您的問題..."

/-- "No backend available" message. -/
def noModelMsg : String := "❌ 沒有可用的模型，請檢查模型設定"

/-- The body of `chat`'s `try` block once a registered model is selected:
invoke the adapter on `buildMessages`; on success append the user turn then
the assistant turn and return the response text; on an exception return the
error text and leave the state untouched. -/
def chatWithModel (m : Manager) (ad : Adapter) (sel tsU tsA user_input : String) :
    Manager × String :=
  match ad sel (buildMessages m user_input) with
  | .ok ai_response =>
      ((m.add_message "user" user_input tsU).add_message "assistant" ai_response tsA,
        ai_response)
  | .error e => (m, "❌ 發生錯誤: " ++ e)

/-- `chat(user_input, model_name)`.  Returns the updated state together with
the returned text. -/
def Manager.chat (m : Manager) (ad : Adapter) (tsU tsA : String)
    (user_input : String) (model_name : Option String) : Manager × String :=
  if pyStrip user_input == "" then (m, emptyInputMsg)
  else
    match resolveModel m model_name with
    | none => (m, noModelMsg)
    | some sel =>
        if (sel != "") && m.models.contains sel then
          chatWithModel m ad sel tsU tsA user_input
        else
          (m, noModelMsg)

/-- Python `str.title()` restricted to the alphabet actually involved: a letter
is uppercased when the previous character is not a letter, lowercased
otherwise (used on the roles, giving `"User"` / `"Assistant"`). -/
def pyTitleGo : Bool → List Char → List Char
  | _, [] => []
  | prevAlpha, c :: cs =>
      (if prevAlpha then c.toLower else c.toUpper) :: pyTitleGo c.isAlpha cs

def pyTitle (s : String) : String :=
  ⟨pyTitleGo false s.data⟩

/-- `role_emoji = "👤" if msg["role"] == "user" else "🤖"`. -/
def roleEmoji (role : String) : String :=
  if role == "user" then "👤" else "🤖"

/-- One iteration of the export loop (`enumerate(history, 1)` supplies `i`). -/
def renderExportEntry (i : Nat) (t : Turn) : String :=
  "## " ++ toString i ++ ". " ++ roleEmoji t.role ++ " " ++ pyTitle t.role ++ "\n" ++
  "**時間**: " ++ t.timestamp ++ "\n" ++
  "**內容**: " ++ t.content ++ "\n\n"

/-- f-string rendering of `chat_manager.current_model` (Python prints `None`
for an unset selection). -/
def optModelStr : Option String → String
  | none => "None"
  | some s => s

/-- The export document's header lines. -/
def exportHeader (m : Manager) (now : String) : String :=
  "# 對話歷史匯出\n" ++ "匯出時間: " ++ now ++ "\n" ++
  "使用模型: " ++ optModelStr m.current_model ++ "\n\n"

/-- `export_conversation`'s "nothing to export" indicator. -/
def noExportMsg : String := "❌ 沒有對話歷史可匯出"

/-- `export_conversation()`: reads the manager's history and current model;
the export time (`datetime.now()`) is passed in as `now`. -/
def export_conversation (m : Manager) (now : String) : String :=
  if m.conversation_history.isEmpty then noExportMsg
  else
    m.conversation_history.enum.foldl
      (fun acc p => acc ++ renderExportEntry (p.1 + 1) p.2)
      (exportHeader m now)

/-! ## Operation sequences and invariants -/

/-- The Conversation Manager operations the Presentation Layer can invoke
(§4.1 of the spec): list backends, switch backend, update the instruction,
clear, chat, export.  `listBackends` and `exportOp` are read-only. -/
inductive Op where
  | listBackends
  | selectBackend (name : String)
  | setInstruction (text : String)
  | reset
  | chatOp (ad : Adapter) (tsU tsA user_input : String) (model_name : Option String)
  | exportOp (now : String)

/-- State effect of one operation. -/
def applyOp (m : Manager) : Op → Manager
  | .listBackends => m
  | .selectBackend n => (m.set_model n).1
  | .setInstruction t => (m.set_system_message t).1
  | .reset => m.clear_conversation.1
  | .chatOp ad tsU tsA u ov => (m.chat ad tsU tsA u ov).1
  | .exportOp _ => m

/-- State effect of a sequence of operations. -/
def applyOps (m : Manager) (ops : List Op) : Manager :=
  ops.foldl applyOp m

/-- The inputs of one `chat` call in a sequence. -/
structure ChatCall where
  userText : String
  model_name : Option String
  tsU : String
  tsA : String

/-- The call `chat(c.userText, c.model_name)` succeeds on state `m`: the input
is not blank, a registered backend resolves, and the adapter invocation on the
messages built from the current state returns without raising. -/
def chatCallOk (ad : Adapter) (m : Manager) (c : ChatCall) : Bool :=
  (pyStrip c.userText != "") &&
    (match resolveModel m c.model_name with
     | none => false
     | some sel =>
         (sel != "") && m.models.contains sel &&
           (match ad sel (buildMessages m c.userText) with
            | .ok _ => true
            | .error _ => false))

/-- The state after one `chat` call. -/
def stepChat (ad : Adapter) (m : Manager) (c : ChatCall) : Manager :=
  (m.chat ad c.tsU c.tsA c.userText c.model_name).1

/-- The text returned by one `chat` call. -/
def callResponse (ad : Adapter) (m : Manager) (c : ChatCall) : String :=
  (m.chat ad c.tsU c.tsA c.userText c.model_name).2

/-- The state after a sequence of `chat` calls. -/
def runChats (ad : Adapter) (m : Manager) : List ChatCall → Manager
  | [] => m
  | c :: cs => runChats ad (stepChat ad m c) cs

/-- Every call of the sequence succeeds on the state it actually runs on. -/
def allCallsOk (ad : Adapter) (m : Manager) : List ChatCall → Prop
  | [] => True
  | c :: cs => chatCallOk ad m c = true ∧ allCallsOk ad (stepChat ad m c) cs

/-- The turns a sequence of `chat` calls contributes, in call order: for each
call, one user turn holding its input text followed by one assistant turn
holding the text that call returned. -/
def chatTurns (ad : Adapter) (m : Manager) : List ChatCall → List Turn
  | [] => []
  | c :: cs =>
      { role := "user", content := c.userText, timestamp := c.tsU } ::
      { role := "assistant", content := callResponse ad m c, timestamp := c.tsA } ::
      chatTurns ad (stepChat ad m c) cs

/-- The Active-Selection invariant: `current_model` names a registry key, or
is unset and the registry is empty. -/
def selInvB (m : Manager) : Bool :=
  match m.current_model with
  | none => m.models.isEmpty
  | some n => m.models.contains n

/-- The transcript consists of consecutive pairs: a `"user"` turn immediately
followed by an `"assistant"` turn. -/
def pairsAlt : List Turn → Bool
  | [] => true
  | [_] => false
  | u :: a :: ts => u.role == "user" && (a.role == "assistant" && pairsAlt ts)

/-- The transcript strictly alternates roles; the flag says whether a `"user"`
turn is expected next (`true` initially: the transcript starts with a user
turn). -/
def altFrom : Bool → List Turn → Bool
  | _, [] => true
  | true, t :: ts => t.role == "user" && altFrom false ts
  | false, t :: ts => t.role == "assistant" && altFrom true ts

/-! ## Concrete test fixtures -/

/-- An adapter that always answers `"Hi there"`. -/
def okAdapter : Adapter := fun _ _ => .ok "Hi there"

/-- An adapter that always raises a network error. -/
def failAdapter : Adapter := fun _ _ => .error "network error"

/-- A manager whose registry holds the single backend `"Local"`. -/
def localManager : Manager :=
  { models := ["Local"]
    current_model := some "Local"
    conversation_history := []
    system_message := defaultSystemMessage }

/-- A manager with an empty registry and unset selection. -/
def emptyRegistryManager : Manager :=
  { models := []
    current_model := none
    conversation_history := []
    system_message := defaultSystemMessage }

example :
    (localManager.chat okAdapter "t1" "t2" "Hello" none).2 = "Hi there" := by decide

example :
    (localManager.chat okAdapter "t1" "t2" "Hello" none).1.conversation_history =
      [{ role := "user", content := "Hello", timestamp := "t1" },
       { role := "assistant", content := "Hi there", timestamp := "t2" }] := by decide

example :
    localManager.chat failAdapter "t1" "t2" "Hello" none =
      (localManager, "❌ 發生錯誤: network error") := by decide

example :
    emptyRegistryManager.chat okAdapter "t1" "t2" "Hello" none =
      (emptyRegistryManager, noModelMsg) := by decide

example : localManager.chat okAdapter "t1" "t2" "   " none = (localManager, emptyInputMsg) := by
  decide

example : pyTitle "user" = "User" := by decide

example : pyTitle "assistant" = "Assistant" := by decide

/-! ## Unfolding lemmas for `chat` -/

theorem chat_eq_of_blank (m : Manager) (ad : Adapter) (tsU tsA u : String)
    (ov : Option String) (hb : pyStrip u = "") :
    m.chat ad tsU tsA u ov = (m, emptyInputMsg) := by
  simp [Manager.chat, hb]

theorem chat_eq_of_ok (m : Manager) (ad : Adapter) (tsU tsA u : String)
    (ov : Option String) (sel r : String) (hb : pyStrip u ≠ "")
    (hres : resolveModel m ov = some sel) (hne : sel ≠ "") (hmem : sel ∈ m.models)
    (hok : ad sel (buildMessages m u) = .ok r) :
    m.chat ad tsU tsA u ov =
      ({ m with conversation_history := m.conversation_history ++
          [{ role := "user", content := u, timestamp := tsU },
           { role := "assistant", content := r, timestamp := tsA }] }, r) := by
  simp [Manager.chat, hres, chatWithModel, hok, hb, hne, hmem,
    List.elem_eq_true_of_mem hmem, Manager.add_message]

theorem chat_eq_of_error (m : Manager) (ad : Adapter) (tsU tsA u : String)
    (ov : Option String) (sel e : String) (hb : pyStrip u ≠ "")
    (hres : resolveModel m ov = some sel) (hne : sel ≠ "") (hmem : sel ∈ m.models)
    (herr : ad sel (buildMessages m u) = .error e) :
    m.chat ad tsU tsA u ov = (m, "❌ 發生錯誤: " ++ e) := by
  simp [Manager.chat, hres, chatWithModel, herr, hb, hne, hmem,
    List.elem_eq_true_of_mem hmem]

theorem chat_eq_of_no_backend (m : Manager) (ad : Adapter) (tsU tsA u : String)
    (ov : Option String) (hb : pyStrip u ≠ "")
    (hno : ∀ n, resolveModel m ov = some n → n ∉ m.models) :
    m.chat ad tsU tsA u ov = (m, noModelMsg) := by
  unfold Manager.chat
  rw [if_neg (by simpa using hb)]
  cases hres : resolveModel m ov with
  | none => rfl
  | some sel =>
      simp [hno sel hres]

/-- `chat` never changes the registry, the active selection or the system
message, whichever branch it takes. -/
theorem chat_frame (m : Manager) (ad : Adapter) (tsU tsA u : String)
    (ov : Option String) :
    (m.chat ad tsU tsA u ov).1.models = m.models ∧
    (m.chat ad tsU tsA u ov).1.current_model = m.current_model ∧
    (m.chat ad tsU tsA u ov).1.system_message = m.system_message := by
  unfold Manager.chat chatWithModel Manager.add_message
  split
  · exact ⟨rfl, rfl, rfl⟩
  · split
    · exact ⟨rfl, rfl, rfl⟩
    · split
      · split <;> exact ⟨rfl, rfl, rfl⟩
      · exact ⟨rfl, rfl, rfl⟩

/-- `chat` either leaves the transcript unchanged or appends exactly one
user turn followed by one assistant turn. -/
theorem chat_history_cases (m : Manager) (ad : Adapter) (tsU tsA u : String)
    (ov : Option String) :
    (m.chat ad tsU tsA u ov).1.conversation_history = m.conversation_history ∨
    ∃ r, (m.chat ad tsU tsA u ov).1.conversation_history = m.conversation_history ++
        [{ role := "user", content := u, timestamp := tsU },
         { role := "assistant", content := r, timestamp := tsA }] := by
  unfold Manager.chat chatWithModel Manager.add_message
  split
  · exact .inl rfl
  · split
    · exact .inl rfl
    · split
      · split
        · rename_i r heq
          exact .inr ⟨r, by simp⟩
        · exact .inl rfl
      · exact .inl rfl

/-! ## Sequences of successful `chat` calls -/

theorem chatCallOk_spec (ad : Adapter) (m : Manager) (c : ChatCall)
    (h : chatCallOk ad m c = true) :
    pyStrip c.userText ≠ "" ∧
    ∃ sel r, resolveModel m c.model_name = some sel ∧ sel ≠ "" ∧ sel ∈ m.models ∧
      ad sel (buildMessages m c.userText) = .ok r := by
  unfold chatCallOk at h
  rw [Bool.and_eq_true] at h
  obtain ⟨h1, h2⟩ := h
  refine ⟨by simpa using h1, ?_⟩
  cases hres : resolveModel m c.model_name with
  | none => rw [hres] at h2; simp at h2
  | some sel =>
      rw [hres] at h2
      rw [Bool.and_eq_true, Bool.and_eq_true] at h2
      obtain ⟨⟨hne, hmem⟩, hok⟩ := h2
      cases hcall : ad sel (buildMessages m c.userText) with
      | ok r =>
          exact ⟨sel, r, rfl, by simpa using hne, by simpa [List.elem_iff] using hmem, hcall⟩
      | error e => rw [hcall] at hok; simp at hok

theorem stepChat_of_ok (ad : Adapter) (m : Manager) (c : ChatCall)
    (h : chatCallOk ad m c = true) :
    stepChat ad m c = { m with conversation_history := m.conversation_history ++
        [{ role := "user", content := c.userText, timestamp := c.tsU },
         { role := "assistant", content := callResponse ad m c, timestamp := c.tsA }] } := by
  obtain ⟨hb, sel, r, hres, hne, hmem, hok⟩ := chatCallOk_spec ad m c h
  have hc := chat_eq_of_ok m ad c.tsU c.tsA c.userText c.model_name sel r hb hres hne hmem hok
  unfold stepChat callResponse
  rw [hc]

theorem runChats_history_eq (ad : Adapter) :
    ∀ (cs : List ChatCall) (m : Manager), allCallsOk ad m cs →
      (runChats ad m cs).conversation_history = m.conversation_history ++ chatTurns ad m cs
  | [], m, _ => by simp [runChats, chatTurns]
  | c :: cs, m, h => by
      obtain ⟨h1, h2⟩ := h
      have ih := runChats_history_eq ad cs (stepChat ad m c) h2
      have hh : (stepChat ad m c).conversation_history = m.conversation_history ++
          [{ role := "user", content := c.userText, timestamp := c.tsU },
           { role := "assistant", content := callResponse ad m c, timestamp := c.tsA }] := by
        rw [stepChat_of_ok ad m c h1]
      show (runChats ad (stepChat ad m c) cs).conversation_history = _
      rw [ih, hh]
      simp [chatTurns]

theorem chatTurns_length_eq (ad : Adapter) :
    ∀ (cs : List ChatCall) (m : Manager), (chatTurns ad m cs).length = 2 * cs.length
  | [], _ => rfl
  | c :: cs, m => by
      have ih := chatTurns_length_eq ad cs (stepChat ad m c)
      simp [chatTurns, ih]
      omega

/-! ## Transcript alternation machinery -/

theorem pairsAlt_append_pair :
    ∀ (ts : List Turn) (u a : Turn), u.role = "user" → a.role = "assistant" →
      pairsAlt ts = true → pairsAlt (ts ++ [u, a]) = true
  | [], u, a, hu, ha, _ => by simp [pairsAlt, hu, ha]
  | [_], _, _, _, _, h => by simp [pairsAlt] at h
  | x :: y :: ts, u, a, hu, ha, h => by
      simp only [pairsAlt, Bool.and_eq_true] at h
      simp only [List.cons_append, pairsAlt, Bool.and_eq_true]
      exact ⟨h.1, h.2.1, pairsAlt_append_pair ts u a hu ha h.2.2⟩

theorem pairsAlt_to_altFrom :
    ∀ ts : List Turn, pairsAlt ts = true → altFrom true ts = true
  | [], _ => rfl
  | [_], h => by simp [pairsAlt] at h
  | u :: a :: ts, h => by
      simp only [pairsAlt, Bool.and_eq_true] at h
      simp only [altFrom, Bool.and_eq_true, beq_iff_eq]
      exact ⟨by simpa using h.1, by simpa using h.2.1, pairsAlt_to_altFrom ts h.2.2⟩

theorem applyOp_pairsAlt (m : Manager) (op : Op)
    (h : pairsAlt m.conversation_history = true) :
    pairsAlt (applyOp m op).conversation_history = true := by
  cases op with
  | listBackends => exact h
  | selectBackend n =>
      show pairsAlt (m.set_model n).1.conversation_history = true
      unfold Manager.set_model
      split <;> exact h
  | setInstruction t => exact h
  | reset => rfl
  | exportOp _ => exact h
  | chatOp ad tsU tsA u ov =>
      rcases chat_history_cases m ad tsU tsA u ov with hsame | ⟨r, happ⟩
      · show pairsAlt (m.chat ad tsU tsA u ov).1.conversation_history = true
        rw [hsame]; exact h
      · show pairsAlt (m.chat ad tsU tsA u ov).1.conversation_history = true
        rw [happ]
        exact pairsAlt_append_pair m.conversation_history _ _ rfl rfl h

theorem applyOps_pairsAlt :
    ∀ (ops : List Op) (m : Manager), pairsAlt m.conversation_history = true →
      pairsAlt (applyOps m ops).conversation_history = true
  | [], _, h => h
  | op :: ops, m, h => applyOps_pairsAlt ops (applyOp m op) (applyOp_pairsAlt m op h)

/-! ## Message construction and export helpers -/

/-- The total role-to-message map that `histMsg?` agrees with on the roles
actually stored by `chat` (`"user"` / `"assistant"`). -/
def histMsgTotal (t : Turn) : Msg :=
  if t.role == "user" then Msg.human t.content else Msg.ai t.content

theorem filterMap_histMsg_eq_map :
    ∀ ts : List Turn, (∀ t ∈ ts, t.role = "user" ∨ t.role = "assistant") →
      ts.filterMap histMsg? = ts.map histMsgTotal
  | [], _ => rfl
  | t :: ts, h => by
      have ih := filterMap_histMsg_eq_map ts (fun x hx => h x (by simp [hx]))
      rcases h t (by simp) with hu | ha
      · simp [List.filterMap_cons, histMsg?, histMsgTotal, hu, ih]
      · simp [List.filterMap_cons, histMsg?, histMsgTotal, ha, ih]

/-- Concatenation of a list of strings. -/
def strConcat : List String → String
  | [] => ""
  | s :: ss => s ++ strConcat ss

theorem foldl_append_eq_strConcat (f : α → String) :
    ∀ (l : List α) (init : String),
      l.foldl (fun acc x => acc ++ f x) init = init ++ strConcat (l.map f)
  | [], init => by simp [strConcat]
  | x :: l, init => by
      have ih := foldl_append_eq_strConcat f l (init ++ f x)
      simp only [List.foldl_cons, List.map_cons, strConcat]
      rw [ih, String.append_assoc]

/-! ## Active-Selection invariant machinery -/

theorem applyOp_selInv (m : Manager) (op : Op) (h : selInvB m = true) :
    selInvB (applyOp m op) = true := by
  cases op with
  | listBackends => exact h
  | selectBackend n =>
      show selInvB (m.set_model n).1 = true
      unfold Manager.set_model
      split
      · rename_i hc
        exact hc
      · exact h
  | setInstruction t => exact h
  | reset => exact h
  | exportOp _ => exact h
  | chatOp ad tsU tsA u ov =>
      show selInvB (m.chat ad tsU tsA u ov).1 = true
      obtain ⟨hm, hc, _⟩ := chat_frame m ad tsU tsA u ov
      unfold selInvB
      rw [hm, hc]
      exact h

/-- A one-call fixture with non-blank input. -/
def helloCall : ChatCall :=
  { userText := "Hello", model_name := none, tsU := "t1", tsA := "t2" }

/-- A manager already holding one user/assistant exchange. -/
def seededManager : Manager :=
  { models := ["Local"]
    current_model := some "Local"
    conversation_history :=
      [{ role := "user", content := "Hello", timestamp := "t1" },
       { role := "assistant", content := "Hi there", timestamp := "t2" }]
    system_message := "sys" }

/-! ## Claim theorems -/

/-- C1: a sequence of N `chat` calls that all succeed (non-blank input, a
backend resolves, the adapter returns without raising), run from an empty
transcript, leaves the transcript equal to `chatTurns` — per call, exactly one
user turn immediately followed by one assistant turn, in call order — so the
transcript length is `2N`. -/
theorem chat_success_sequence_transcript (ad : Adapter) (m : Manager)
    (cs : List ChatCall) (h0 : m.conversation_history = [])
    (h : allCallsOk ad m cs) :
    (runChats ad m cs).conversation_history = chatTurns ad m cs ∧
    (runChats ad m cs).conversation_history.length = 2 * cs.length := by
  have hh := runChats_history_eq ad cs m h
  rw [h0] at hh
  simp only [List.nil_append] at hh
  exact ⟨hh, by rw [hh]; exact chatTurns_length_eq ad cs m⟩

theorem chat_success_sequence_transcript_witness :
    (runChats okAdapter localManager [helloCall, helloCall]).conversation_history =
        chatTurns okAdapter localManager [helloCall, helloCall] ∧
    (runChats okAdapter localManager [helloCall, helloCall]).conversation_history.length =
        2 * [helloCall, helloCall].length :=
  chat_success_sequence_transcript okAdapter localManager [helloCall, helloCall] rfl
    ⟨by decide, by decide, trivial⟩

/-- C2: when the resolved backend's `invoke` raises, `chat` catches the
exception, returns the descriptive `"❌ 發生錯誤: "`-prefixed text instead of
propagating, and leaves the whole state — in particular the transcript —
exactly as before the call. -/
theorem chat_adapter_failure_spec (m : Manager) (ad : Adapter) (tsU tsA u : String)
    (ov : Option String) (sel e : String) (hb : pyStrip u ≠ "")
    (hres : resolveModel m ov = some sel) (hne : sel ≠ "") (hmem : sel ∈ m.models)
    (herr : ad sel (buildMessages m u) = .error e) :
    m.chat ad tsU tsA u ov = (m, "❌ 發生錯誤: " ++ e) ∧
    (m.chat ad tsU tsA u ov).1.conversation_history = m.conversation_history := by
  have hc := chat_eq_of_error m ad tsU tsA u ov sel e hb hres hne hmem herr
  exact ⟨hc, by rw [hc]⟩

theorem chat_adapter_failure_spec_witness :
    localManager.chat failAdapter "t1" "t2" "Hello" none =
        (localManager, "❌ 發生錯誤: " ++ "network error") ∧
    (localManager.chat failAdapter "t1" "t2" "Hello" none).1.conversation_history =
        localManager.conversation_history :=
  chat_adapter_failure_spec localManager failAdapter "t1" "t2" "Hello" none "Local"
    "network error" (by decide) (by decide) (by decide) (by decide) rfl

/-- C3: on a call that reaches the adapter, the outbound message list is
rebuilt fresh from the current state as exactly: the current system
instruction first, then every transcript turn in stored order (user turns as
`HumanMessage`, assistant turns as `AIMessage`), then one new user message
from the call's input; and `chat` hands the adapter exactly that list (the
only adapter interaction in `chatWithModel` is `ad sel (buildMessages m u)`). -/
theorem chat_outbound_messages_spec (m : Manager) (ad : Adapter) (tsU tsA u : String)
    (ov : Option String) (sel : String)
    (hroles : ∀ t ∈ m.conversation_history, t.role = "user" ∨ t.role = "assistant")
    (hb : pyStrip u ≠ "") (hres : resolveModel m ov = some sel) (hne : sel ≠ "")
    (hmem : sel ∈ m.models) :
    buildMessages m u =
      Msg.system m.system_message ::
        (m.conversation_history.map histMsgTotal ++ [Msg.human u]) ∧
    m.chat ad tsU tsA u ov = chatWithModel m ad sel tsU tsA u := by
  constructor
  · unfold buildMessages
    rw [filterMap_histMsg_eq_map m.conversation_history hroles]
  · unfold Manager.chat
    rw [if_neg (by simpa using hb), hres]
    simp [hne, hmem]

theorem chat_outbound_messages_spec_witness :
    buildMessages seededManager "Again" =
      Msg.system seededManager.system_message ::
        (seededManager.conversation_history.map histMsgTotal ++ [Msg.human "Again"]) ∧
    seededManager.chat okAdapter "t3" "t4" "Again" none =
      chatWithModel seededManager okAdapter "Local" "t3" "t4" "Again" :=
  chat_outbound_messages_spec seededManager okAdapter "t3" "t4" "Again" none "Local"
    (by decide) (by decide) (by decide) (by decide) (by decide)

/-- C4: the effective backend is the per-call override when it names a
registry key, otherwise the Active Selection; and when no registered backend
resolves, `chat` (on non-blank input, the case the resolution step is reached)
returns the "no backend available" message, for every adapter — so no adapter
is contacted — and returns the state unchanged.  The hypothesis `"" ∉ models`
holds for every registry the program builds (the four candidate names are
non-empty); it excludes Python's falsy-string corner in
`model_name if model_name and model_name in self.models`. -/
theorem chat_backend_resolution_spec (m : Manager) (hwf : "" ∉ m.models) :
    (∀ n, n ∈ m.models → resolveModel m (some n) = some n) ∧
    (∀ n, n ∉ m.models → resolveModel m (some n) = m.current_model) ∧
    resolveModel m none = m.current_model ∧
    (∀ (ov : Option String) (u : String) (ad : Adapter) (tsU tsA : String),
      pyStrip u ≠ "" →
      (∀ n, resolveModel m ov = some n → n ∉ m.models) →
      m.chat ad tsU tsA u ov = (m, noModelMsg) ∧
      (m.chat ad tsU tsA u ov).1 = m) := by
  refine ⟨?_, ?_, rfl, ?_⟩
  · intro n hn
    have hne : n ≠ "" := fun h => hwf (h ▸ hn)
    simp [resolveModel, hne, hn]
  · intro n hn
    simp [resolveModel, hn]
  · intro ov u ad tsU tsA hb hno
    have hc := chat_eq_of_no_backend m ad tsU tsA u ov hb hno
    exact ⟨hc, by rw [hc]⟩

theorem chat_backend_resolution_spec_witness :
    emptyRegistryManager.chat okAdapter "t1" "t2" "Hello" none =
        (emptyRegistryManager, noModelMsg) ∧
    (emptyRegistryManager.chat okAdapter "t1" "t2" "Hello" none).1 =
        emptyRegistryManager :=
  (chat_backend_resolution_spec emptyRegistryManager (by decide)).2.2.2 none "Hello"
    okAdapter "t1" "t2" (by decide)
    (fun n h => by simp [resolveModel, emptyRegistryManager] at h)

/-- C5: `set_model` updates the Active Selection to the requested name and
reports success exactly when the name is a registry key; for a non-key it
returns the "backend unavailable" status string and leaves the whole state —
in particular the selection — unchanged, raising nothing. -/
theorem set_model_iff_spec (m : Manager) (n : String) :
    (n ∈ m.models →
      m.set_model n = ({ m with current_model := some n }, "✅ 已切換至 " ++ n)) ∧
    (n ∉ m.models →
      m.set_model n = (m, "❌ 模型 " ++ n ++ " 不可用")) := by
  constructor
  · intro hn
    simp [Manager.set_model, hn]
  · intro hn
    simp [Manager.set_model, hn]

theorem set_model_iff_spec_witness :
    localManager.set_model "Local" =
        ({ localManager with current_model := some "Local" }, "✅ 已切換至 " ++ "Local") ∧
    localManager.set_model "Nope" = (localManager, "❌ 模型 " ++ "Nope" ++ " 不可用") :=
  ⟨(set_model_iff_spec localManager "Local").1 (by decide),
   (set_model_iff_spec localManager "Nope").2 (by decide)⟩

/-- C6: on input that strips to the empty string (so `""` and `"   "` alike),
`chat` returns the one fixed prompt-for-input message, contacts no adapter
(the result is the same for every adapter) and leaves the state unchanged. -/
theorem chat_blank_input_spec (m : Manager) (ad : Adapter) (tsU tsA u : String)
    (ov : Option String) (hb : pyStrip u = "") :
    m.chat ad tsU tsA u ov = (m, emptyInputMsg) ∧
    emptyInputMsg = "請輸入您的問題..." :=
  ⟨chat_eq_of_blank m ad tsU tsA u ov hb, rfl⟩

theorem chat_blank_input_spec_witness :
    localManager.chat okAdapter "t1" "t2" "" none = (localManager, emptyInputMsg) ∧
    localManager.chat okAdapter "t1" "t2" "   " none = (localManager, emptyInputMsg) :=
  ⟨(chat_blank_input_spec localManager okAdapter "t1" "t2" "" none (by decide)).1,
   (chat_blank_input_spec localManager okAdapter "t1" "t2" "   " none (by decide)).1⟩

/-- C7: `clear_conversation` always succeeds, leaves the transcript empty
regardless of its prior contents, and changes neither the Active Selection,
nor the System Instruction, nor the registry. -/
theorem clear_conversation_frame_spec (m : Manager) :
    m.clear_conversation.1.conversation_history = [] ∧
    m.clear_conversation.1.current_model = m.current_model ∧
    m.clear_conversation.1.system_message = m.system_message ∧
    m.clear_conversation.1.models = m.models ∧
    m.clear_conversation.2 = "✅ 對話歷史已清除" :=
  ⟨rfl, rfl, rfl, rfl, rfl⟩

/-- C8: `export_conversation` on an empty transcript returns the "nothing to
export" indicator; on a non-empty transcript it returns the header — which
records the export time and the Active Selection at export time — followed by
one rendered entry per transcript turn, in transcript order, each entry
displaying the turn's role (title-cased), its timestamp and its content. -/
theorem export_conversation_spec (m : Manager) (now : String) :
    (m.conversation_history = [] → export_conversation m now = noExportMsg) ∧
    (m.conversation_history ≠ [] →
      export_conversation m now =
        exportHeader m now ++
          strConcat (m.conversation_history.enum.map
            (fun p => renderExportEntry (p.1 + 1) p.2)) ∧
      (m.conversation_history.enum.map
          (fun p => renderExportEntry (p.1 + 1) p.2)).length =
        m.conversation_history.length ∧
      (∀ p ∈ m.conversation_history.enum, ∃ s1 s2 s3 s4,
        renderExportEntry (p.1 + 1) p.2 =
          s1 ++ pyTitle p.2.role ++ s2 ++ p.2.timestamp ++ s3 ++ p.2.content ++ s4) ∧
      exportHeader m now =
        "# 對話歷史匯出\n" ++ "匯出時間: " ++ now ++ "\n" ++
          "使用模型: " ++ optModelStr m.current_model ++ "\n\n") := by
  constructor
  · intro h
    simp [export_conversation, h]
  · intro h
    refine ⟨?_, by simp, ?_, rfl⟩
    · unfold export_conversation
      rw [if_neg (by simpa [List.isEmpty_iff] using h)]
      exact foldl_append_eq_strConcat _ m.conversation_history.enum (exportHeader m now)
    · intro p _
      exact ⟨"## " ++ toString (p.1 + 1) ++ ". " ++ roleEmoji p.2.role ++ " ",
        "\n" ++ "**時間**: ", "\n" ++ "**內容**: ", "\n\n",
        by simp [renderExportEntry, String.append_assoc]⟩

theorem export_conversation_spec_witness :
    export_conversation seededManager "T" =
      exportHeader seededManager "T" ++
        strConcat (seededManager.conversation_history.enum.map
          (fun p => renderExportEntry (p.1 + 1) p.2)) :=
  ((export_conversation_spec seededManager "T").2 (by decide)).1

/-- C9: after construction the Active Selection is the first successfully
registered backend name (unset exactly when the registry came out empty), and
every operation preserves the invariant that the selection names a registry
key, or is unset only with an empty registry. -/
theorem selection_invariant_spec :
    (∀ okOllama okGemini okOpenAI okAnthropic : Bool,
      selInvB (initManager okOllama okGemini okOpenAI okAnthropic) = true ∧
      (initManager okOllama okGemini okOpenAI okAnthropic).current_model =
        (initRegistry okOllama okGemini okOpenAI okAnthropic).head?) ∧
    (∀ (m : Manager) (op : Op), selInvB m = true → selInvB (applyOp m op) = true) :=
  ⟨by decide, applyOp_selInv⟩

theorem selection_invariant_spec_witness :
    selInvB (applyOp localManager Op.reset) = true :=
  selection_invariant_spec.2 localManager Op.reset (by decide)

/-- C10: starting from a freshly constructed manager (empty transcript), any
sequence of the public operations leaves a transcript whose entries all carry
role `"user"` or `"assistant"` and which strictly alternates those roles
beginning with a user turn (`altFrom true` checks exactly that). -/
theorem transcript_alternation_spec (okOllama okGemini okOpenAI okAnthropic : Bool)
    (ops : List Op) :
    altFrom true
      (applyOps (initManager okOllama okGemini okOpenAI okAnthropic)
        ops).conversation_history = true :=
  pairsAlt_to_altFrom _ (applyOps_pairsAlt ops _ rfl)

end Lesson5Chat
